import Mathlib

/-!
Verification of the tip-jar proxy server (`src/proxy-server.js`).

The file shallowly embeds the JavaScript of the final revision:
JavaScript values become the inductive `JVal` (with `Option JVal` for
"value or `undefined`"), property access that can throw a `TypeError`
returns `Except Unit _`, and the asynchronous remote calls become an
explicit `Remote` record of oracles.  The aggregator threads the cache
and records which remote calls it issued, so cache- and fan-out
behaviour are provable statements about the model.
-/

namespace TipJar

/-- A JavaScript (JSON-parseable) value: the possible shapes of parsed
upstream response bodies and of the items inside them. -/
inductive JVal : Type where
  | null : JVal
  | bool : Bool → JVal
  | num : Int → JVal
  | str : String → JVal
  | arr : List JVal → JVal
  | obj : List (String × JVal) → JVal

/-- A JavaScript value or `undefined` (`none` plays `undefined`). -/
abbrev JSV := Option JVal

/-- JavaScript truthiness of a defined value. -/
def JVal.truthy : JVal → Bool
  | .null => false
  | .bool b => b
  | .num n => n ≠ 0
  | .str s => s ≠ ""
  | .arr _ => true
  | .obj _ => true

/-- Truthiness of a value-or-undefined (`undefined` is falsy). -/
def jsTruthy : JSV → Bool
  | none => false
  | some v => v.truthy

/-- JavaScript `a || b`: the left operand if truthy, otherwise the right. -/
def jsOr (a b : JSV) : JSV :=
  if jsTruthy a then a else b

/-- Property access `v.k`.  Throws a `TypeError` (modelled `.error ()`)
when the receiver is `null`; yields the field of an object, or
`undefined` for a missing field and for non-object receivers. -/
def JVal.prop : JVal → String → Except Unit JSV
  | .null, _ => .error ()
  | .obj fs, k => .ok (fs.lookup k)
  | _, _ => .ok none

/-- `v.length` as read by the code's `games.length === 0` test:
defined for arrays and strings, an explicit `length` field of an
object, `undefined` otherwise. -/
def JVal.lengthProp : JVal → JSV
  | .arr xs => some (.num xs.length)
  | .str s => some (.num s.length)
  | .obj fs => fs.lookup "length"
  | _ => none

/-- String conversion used by the template literal
`rbxassetid://${iconAssetId}` (`null`/booleans/numbers/strings as
JavaScript prints them, arrays joined with commas, objects as
`[object Object]`). -/
def JVal.jsToString : JVal → String
  | .null => "null"
  | .bool b => if b then "true" else "false"
  | .num n => toString n
  | .str s => s
  | .arr xs => String.intercalate "," (xs.attach.map fun x => x.1.jsToString)
  | .obj _ => "[object Object]"
decreasing_by
  simp only [JVal.arr.sizeOf_spec]
  have := List.sizeOf_lt_of_mem x.2
  omega

/-- The canonical record built by the pass formatter: each field holds
the JavaScript value (or `undefined`) the formatter produced. -/
structure FormattedPass where
  id : JSV
  name : JSV
  icon : JSV
  description : JSV

/-- The pass formatter of `fetchAllUserGamePasses` (lines 162–171;
the `universeId` branch of the endpoint, lines 257–265, runs the same
code).  Property accesses on a `null` item throw. -/
def formatPass (pass : JVal) : Except Unit FormattedPass := do
  let dIconId ← pass.prop "displayIconImageAssetId"
  let iconId ← pass.prop "iconImageAssetId"
  let iconAssetId := jsOr dIconId iconId
  let iconUrl : JVal :=
    match iconAssetId with
    | some v => if v.truthy then .str ("rbxassetid://" ++ v.jsToString) else .str ""
    | none => .str ""
  let pId ← pass.prop "id"
  let pProductId ← pass.prop "productId"
  let pGamePassId ← pass.prop "gamePassId"
  let pAssetId ← pass.prop "assetId"
  let pPassId ← pass.prop "passId"
  let pDisplayName ← pass.prop "displayName"
  let pName ← pass.prop "name"
  let pIconImageUrl ← pass.prop "iconImageUrl"
  let pIcon ← pass.prop "icon"
  let pImageUrl ← pass.prop "imageUrl"
  let pDisplayDescription ← pass.prop "displayDescription"
  let pDescription ← pass.prop "description"
  return {
    id := jsOr pId (jsOr pProductId (jsOr pGamePassId (jsOr pAssetId pPassId)))
    name := jsOr pDisplayName (jsOr pName (some (.str "Unknown")))
    icon := jsOr (some iconUrl) (jsOr pIconImageUrl (jsOr pIcon (jsOr pImageUrl (some (.str "")))))
    description := jsOr pDisplayDescription (jsOr pDescription (some (.str ""))) }

/-- One cache slot: `passCache[userId] = { passes, timestamp }`. -/
structure CacheEntry where
  passes : List FormattedPass
  timestamp : Nat

/-- The in-memory cache map `passCache` (`userId -> entry or absent`). -/
def Cache : Type := String → Option CacheEntry

/-- `getCachedPasses(userId, forceRefresh)` (lines 22–39), with the
clock `now` and the duration `CACHE_DURATION` (`ttl`) passed
explicitly.  Returns the stored passes only when refresh is not forced,
an entry exists, and its age is below the ttl; otherwise `none`. -/
def getCachedPasses (cache : Cache) (ttl now : Nat) (userId : String)
    (forceRefresh : Bool) : Option (List FormattedPass) :=
  if forceRefresh then none
  else
    match cache userId with
    | some cached => if now - cached.timestamp < ttl then some cached.passes else none
    | none => none

/-- `cachePasses(userId, passes)` (lines 42–48): overwrite the slot
with the fresh passes stamped `now`. -/
def cachePasses (cache : Cache) (now : Nat) (userId : String)
    (passes : List FormattedPass) : Cache :=
  fun k => if k = userId then some ⟨passes, now⟩ else cache k

/-- The two upstream HTTP calls, as oracles.  `fetchUserGames` and
`fetchUniverseGamePasses` resolve with the parsed JSON body on a 200
response and reject with an error message otherwise (non-200 status,
parse failure, or transport error); the `Except` error carries
`error.message`. -/
structure Remote where
  userGames : String → Except String JVal
  universeGamePasses : JVal → Except String JVal

/-- JavaScript `===` comparison of a value-or-undefined with the
number literal `0`, as in `games.length === 0`. -/
def isStrictZero : JSV → Bool
  | some (.num n) => n == 0
  | _ => false

/-- `passesArray.map(pass => …)` with the formatter: JavaScript's
`map` runs left to right and the first thrown `TypeError` (a `null`
item) aborts the whole map, so the error of the first failing item
propagates. -/
def formatAll : List JVal → Except Unit (List FormattedPass)
  | [] => .ok []
  | p :: ps =>
    match formatPass p with
    | .error e => .error e
    | .ok r =>
      match formatAll ps with
      | .error e => .error e
      | .ok rs => .ok (r :: rs)

/-- The body of one per-child task of the fan-out (lines 157–177,
before its `catch`): fetch the universe's passes, unwrap the container
(`gamePasses` field, then `data` field, then the bare array, else
`[]`), and format every item.  Any throw — a rejected fetch, property
access on a `null` response, or formatting a `null` item — surfaces as
`.error`. -/
def childPassesExc (remote : Remote) (universeId : JVal) :
    Except Unit (List FormattedPass) :=
  match remote.universeGamePasses universeId with
  | .error _ => .error ()
  | .ok resp =>
    match resp.prop "gamePasses" with
    | .error e => .error e
    | .ok gp =>
      match resp.prop "data" with
      | .error e => .error e
      | .ok dt =>
        let bare : JVal := match resp with | .arr _ => resp | _ => .arr []
        match jsOr gp (jsOr dt (some bare)) with
        | some (.arr xs) => if xs.length > 0 then formatAll xs else .ok []
        | _ => .ok []

/-- One per-child task including its `catch` (lines 178–181): a
failing child contributes the empty list. -/
def fetchChildPasses (remote : Remote) (universeId : JVal) : List FormattedPass :=
  match childPassesExc remote universeId with
  | .ok l => l
  | .error _ => []

/-- `game.id || game.universeId` (line 150); throws on a `null` game
entry. -/
def deriveChildId (g : JVal) : Except Unit JSV :=
  match g.prop "id" with
  | .error e => .error e
  | .ok gid =>
    match g.prop "universeId" with
    | .error e => .error e
    | .ok guid => .ok (jsOr gid guid)

/-- `games.map(game => game.id || game.universeId)` (line 150): left
to right, the first throw (a `null` entry) aborts the map. -/
def deriveAll : List JVal → Except Unit (List JSV)
  | [] => .ok []
  | g :: gs =>
    match deriveChildId g with
    | .error e => .error e
    | .ok i =>
      match deriveAll gs with
      | .error e => .error e
      | .ok is => .ok (i :: is)

/-- The outcome of one `fetchAllUserGamePasses` call: the returned
passes, the cache afterwards, how many `fetchUserGames` calls were
issued, and the universe ids passed to `fetchUniverseGamePasses`, in
order. -/
structure AggResult where
  passes : List FormattedPass
  cache : Cache
  gamesCalls : Nat
  childCalls : List JVal

/-- Lines 142–195 of `fetchAllUserGamePasses` after a cache miss and a
resolved `fetchUserGames`: extract `data || []`, return early (without
caching) when `games.length === 0`, derive and filter child ids, cap
at 10, fan out, flatten in child order, cache, return.  A throw
(`.data` on a `null` response, `.map` on a non-array, a `null` game
entry) propagates to the outer `catch`. -/
def aggBody (remote : Remote) (cache : Cache) (now : Nat) (userId : String)
    (gamesResponse : JVal) : Except Unit AggResult :=
  match gamesResponse.prop "data" with
  | .error e => .error e
  | .ok dataField =>
    let games : JVal := match jsOr dataField (some (.arr [])) with
      | some v => v
      | none => .arr []
    if isStrictZero games.lengthProp then
      .ok ⟨[], cache, 1, []⟩
    else
      match games with
      | .arr gs =>
        match deriveAll gs with
        | .error e => .error e
        | .ok ids =>
          let universeIds : List JVal := ids.filterMap fun o =>
            if jsTruthy o then o else none
          let gamesToCheck := universeIds.take 10
          let allPasses := (gamesToCheck.map (fetchChildPasses remote)).flatten
          .ok ⟨allPasses, cachePasses cache now userId allPasses, 1, gamesToCheck⟩
      | _ => .error ()

/-- `fetchAllUserGamePasses(userId, forceRefresh)` (lines 130–201).
The outer `try`/`catch` turns any throw — including a failed
`fetchUserGames` — into a plain `[]` return that caches nothing. -/
def fetchAllUserGamePasses (remote : Remote) (cache : Cache) (ttl now : Nat)
    (userId : String) (forceRefresh : Bool) : AggResult :=
  match getCachedPasses cache ttl now userId forceRefresh with
  | some cached => ⟨cached, cache, 0, []⟩
  | none =>
    match remote.userGames userId with
    | .error _ => ⟨[], cache, 1, []⟩
    | .ok gamesResponse =>
      match aggBody remote cache now userId gamesResponse with
      | .ok r => r
      | .error _ => ⟨[], cache, 1, []⟩

/-- The JSON envelope a `/api/gamepasses` handler sends: HTTP status,
`success`, and whichever of `gamePasses`/`count`/`error` the branch
serializes. -/
structure HttpResponse where
  status : Nat
  success : Bool
  gamePasses : Option (List FormattedPass)
  count : Option Nat
  error : Option String

/-- The `universeId` branch of `GET /api/gamepasses` (lines 242–291)
up to its `catch`: fetch, unwrap the container, format each item with
the same field probing as the aggregator (a throw while formatting
escapes to the `catch`). -/
def universeBranchExc (remote : Remote) (universeId : String) :
    Except String (List FormattedPass) :=
  match remote.universeGamePasses (.str universeId) with
  | .error e => .error e
  | .ok resp =>
    match resp.prop "gamePasses" with
    | .error _ => .error "TypeError"
    | .ok gp =>
      match resp.prop "data" with
      | .error _ => .error "TypeError"
      | .ok dt =>
        let bare : JVal := match resp with | .arr _ => resp | _ => .arr []
        match jsOr gp (jsOr dt (some bare)) with
        | some (.arr xs) =>
          if xs.length > 0 then
            match formatAll xs with
            | .error _ => .error "TypeError"
            | .ok rs => .ok rs
          else .ok []
        | _ => .ok []

/-- `GET /api/gamepasses` (lines 236–325): prefer a truthy
`universeId` (its failures answer 500), else require a truthy `userId`
(missing → 400), else run the cache-aware aggregator, which never
throws, and answer 200 with its result. -/
def apiGamePasses (remote : Remote) (cache : Cache) (ttl now : Nat)
    (universeId userId refresh : Option String) : HttpResponse × Cache :=
  if jsTruthy (universeId.map .str) then
    match universeBranchExc remote (universeId.getD "") with
    | .ok passes => (⟨200, true, some passes, some passes.length, none⟩, cache)
    | .error e => (⟨500, false, none, none, some e⟩, cache)
  else if jsTruthy (userId.map .str) then
    let forceRefresh : Bool := refresh == some "true" || refresh == some "1"
    let r := fetchAllUserGamePasses remote cache ttl now (userId.getD "") forceRefresh
    (⟨200, true, some r.passes, some r.passes.length, none⟩, r.cache)
  else
    (⟨400, false, none, none, some "universeId or userId parameter is required"⟩, cache)

/-! ## Specification-side description of the normalizer -/

/-- Spec-side field lookup: the raw item's field when the item is an
object and has it, otherwise absent.  Total (no throwing). -/
def lookupField (v : JVal) (k : String) : JSV :=
  match v with
  | .obj fs => fs.lookup k
  | _ => none

/-- The spec's ordered-candidate probing, under JavaScript
truthiness: the first candidate whose value is truthy wins; when no
candidate is truthy the chain yields the last candidate's value
(which may be a present falsy value, or absent). -/
def probeFields (v : JVal) : List String → JSV
  | [] => none
  | [k] => lookupField v k
  | k :: ks =>
    let x := lookupField v k
    if jsTruthy x then x else probeFields v ks

/-- Ordered-candidate probing ending in a literal default: the first
truthy candidate, else the default. -/
def probeWithDefault (v : JVal) (keys : List String) (dflt : JVal) : JSV :=
  match keys with
  | [] => some dflt
  | k :: ks =>
    let x := lookupField v k
    if jsTruthy x then x else probeWithDefault v ks dflt

/-- The normalizer as the specification words it: per-field ordered
probing, with the icon preferring the asset-id candidates (rewritten
into the `rbxassetid://` scheme) over the direct-URL candidates. -/
def specProbeRecord (v : JVal) : FormattedPass :=
  let asset := probeFields v ["displayIconImageAssetId", "iconImageAssetId"]
  let iconUrl : JVal :=
    match asset with
    | some a => if a.truthy then .str ("rbxassetid://" ++ a.jsToString) else .str ""
    | none => .str ""
  { id := probeFields v ["id", "productId", "gamePassId", "assetId", "passId"]
    name := probeWithDefault v ["displayName", "name"] (.str "Unknown")
    icon := jsOr (some iconUrl) (probeWithDefault v ["iconImageUrl", "icon", "imageUrl"] (.str ""))
    description := probeWithDefault v ["displayDescription", "description"] (.str "") }

/-- The field names the formatter recognizes. -/
def recognizedKeys : List String :=
  ["displayIconImageAssetId", "iconImageAssetId", "id", "productId", "gamePassId",
   "assetId", "passId", "displayName", "name", "iconImageUrl", "icon", "imageUrl",
   "displayDescription", "description"]

/-- Whether property `k` of the raw item reads as `undefined`. -/
def propAbsent (v : JVal) (k : String) : Bool :=
  match v.prop k with
  | .ok none => true
  | _ => false

/-- The raw item has none of the recognized field names. -/
def noRecognizedFields (v : JVal) : Bool :=
  recognizedKeys.all (propAbsent v)

lemma prop_eq_lookupField (v : JVal) (hv : v ≠ .null) (k : String) :
    v.prop k = .ok (lookupField v k) := by
  cases v <;> simp_all [JVal.prop, lookupField]

/-- On any non-`null` item the formatter succeeds and computes exactly
the spec-side ordered probe. -/
lemma formatPass_eq_specProbeRecord (v : JVal) (hv : v ≠ .null) :
    formatPass v = .ok (specProbeRecord v) := by
  cases v with
  | null => exact absurd rfl hv
  | bool b => rfl
  | num n => rfl
  | str s => rfl
  | arr xs => rfl
  | obj fs => rfl

lemma lookupField_of_propAbsent (v : JVal) (hv : v ≠ .null) (k : String)
    (h : propAbsent v k = true) : lookupField v k = none := by
  have hp := prop_eq_lookupField v hv k
  unfold propAbsent at h
  rw [hp] at h
  cases hx : lookupField v k with
  | none => rfl
  | some x => rw [hx] at h; simp at h

lemma specProbeRecord_sentinel (v : JVal) (hv : v ≠ .null)
    (h : noRecognizedFields v = true) :
    specProbeRecord v = ⟨none, some (.str "Unknown"), some (.str ""), some (.str "")⟩ := by
  unfold noRecognizedFields recognizedKeys at h
  simp only [List.all_cons, List.all_nil, Bool.and_true, Bool.and_eq_true] at h
  obtain ⟨h1, h2, h3, h4, h5, h6, h7, h8, h9, h10, h11, h12, h13, h14⟩ := h
  simp [specProbeRecord, probeFields, probeWithDefault, jsOr, jsTruthy,
    lookupField_of_propAbsent v hv _ h1, lookupField_of_propAbsent v hv _ h2,
    lookupField_of_propAbsent v hv _ h3, lookupField_of_propAbsent v hv _ h4,
    lookupField_of_propAbsent v hv _ h5, lookupField_of_propAbsent v hv _ h6,
    lookupField_of_propAbsent v hv _ h7, lookupField_of_propAbsent v hv _ h8,
    lookupField_of_propAbsent v hv _ h9, lookupField_of_propAbsent v hv _ h10,
    lookupField_of_propAbsent v hv _ h11, lookupField_of_propAbsent v hv _ h12,
    lookupField_of_propAbsent v hv _ h13, lookupField_of_propAbsent v hv _ h14]

/-- C3 counterexample: the formatter is not total over raw item
values — formatting the JSON value `null` throws a `TypeError` (every
property access on `null` throws), so "never throws an exception" over
every raw item value is false. -/
theorem C3_counterexample : formatPass JVal.null = .error () := rfl

/-- C3 (amended): for every raw item other than `null` the formatter
returns a record without throwing, and an item with none of the
recognized field names yields exactly
`{id: undefined, name: "Unknown", icon: "", description: ""}`;
a `null` raw item, however, throws. -/
theorem C3_normalizer_total_except_null (v : JVal) (hv : v ≠ .null) :
    (formatPass v).isOk = true ∧
      (noRecognizedFields v = true →
        formatPass v = .ok ⟨none, some (.str "Unknown"), some (.str ""), some (.str "")⟩) := by
  refine ⟨?_, fun h => ?_⟩
  · rw [formatPass_eq_specProbeRecord v hv]; rfl
  · rw [formatPass_eq_specProbeRecord v hv, specProbeRecord_sentinel v hv h]

/-- C3 witness: a concrete object with only an unrecognized field. -/
theorem C3_witness :
    (JVal.obj [("foo", .num 1)] ≠ JVal.null) ∧
      ((formatPass (.obj [("foo", .num 1)])).isOk = true ∧
        (noRecognizedFields (.obj [("foo", .num 1)]) = true →
          formatPass (.obj [("foo", .num 1)]) =
            .ok ⟨none, some (.str "Unknown"), some (.str ""), some (.str "")⟩)) :=
  ⟨by simp, C3_normalizer_total_except_null _ (by simp)⟩

/-- C4 counterexample: the probing takes the first *truthy* value, not
the first present (not-undefined) one — on `{id: 0, productId: 7}` the
present value `0` of the first candidate `id` is skipped and the
formatter produces id `7`, not `0`. -/
theorem C4_counterexample :
    (formatPass (.obj [("id", .num 0), ("productId", .num 7)])).map FormattedPass.id =
        .ok (some (.num 7)) ∧
      (Except.ok (some (JVal.num 7)) : Except Unit JSV) ≠ .ok (some (.num 0)) :=
  ⟨rfl, by simp⟩

/-- C4 (amended): on every non-`null` raw item the formatter computes
exactly the spec-side ordered probe with *truthiness* (not presence)
selection — per field the first truthy candidate wins, a fully falsy
chain yields its last candidate's value, and the icon prefers the
asset-id candidates rewritten to `rbxassetid://<id>` over the
direct-URL candidates, with `""` as final fallback. -/
theorem C4_ordered_probing (v : JVal) (hv : v ≠ .null) :
    formatPass v = .ok (specProbeRecord v) :=
  formatPass_eq_specProbeRecord v hv

/-- C4 witness: a concrete item exercising the icon preference — the
asset id 55 beats the direct URL, productId backs up the absent id. -/
theorem C4_witness :
    (JVal.obj [("displayIconImageAssetId", .num 55), ("iconImageUrl", .str "u"),
        ("name", .str "VIP"), ("productId", .num 3)] ≠ JVal.null) ∧
      formatPass (.obj [("displayIconImageAssetId", .num 55), ("iconImageUrl", .str "u"),
          ("name", .str "VIP"), ("productId", .num 3)]) =
        .ok (specProbeRecord (.obj [("displayIconImageAssetId", .num 55),
          ("iconImageUrl", .str "u"), ("name", .str "VIP"), ("productId", .num 3)])) ∧
      specProbeRecord (.obj [("displayIconImageAssetId", .num 55), ("iconImageUrl", .str "u"),
          ("name", .str "VIP"), ("productId", .num 3)]) =
        ⟨some (.num 3), some (.str "VIP"), some (.str "rbxassetid://55"), some (.str "")⟩ :=
  ⟨by simp, C4_ordered_probing _ (by simp),
    by
      simp [specProbeRecord, probeFields, probeWithDefault, lookupField, jsTruthy,
        JVal.truthy, jsOr, JVal.jsToString, List.lookup]
      rfl⟩

/-! ## Cache behaviour -/

/-- C7: `getCachedPasses(key, forceRefresh)` returns absent exactly
when no entry exists for the key, or `forceRefresh` is true, or
`now - fetchedAt >= ttl`; otherwise it returns the stored records.
The embedding is a pure function of the cache — it takes the map and
returns only the lookup result, so it cannot mutate cache state. -/
theorem C7_cache_get (cache : Cache) (ttl now : Nat) (uid : String) (fr : Bool) :
    (getCachedPasses cache ttl now uid fr = none ↔
      fr = true ∨ cache uid = none ∨
        ∃ e, cache uid = some e ∧ ttl ≤ now - e.timestamp) ∧
    getCachedPasses cache ttl now uid fr =
      (cache uid).bind fun e =>
        if fr = false ∧ now - e.timestamp < ttl then some e.passes else none := by
  unfold getCachedPasses
  cases fr with
  | true => simp
  | false =>
    cases hc : cache uid with
    | none => simp [hc]
    | some e =>
      by_cases h : now - e.timestamp < ttl <;>
        simp [hc, h, Nat.not_lt, Nat.le_of_not_lt]

/-! ## Concrete collaborators used by counterexamples and witnesses -/

/-- The empty cache map. -/
def emptyCache : Cache := fun _ => none

/-- A remote whose children enumeration always fails. -/
def failingRemote : Remote :=
  ⟨fun _ => .error "enumeration failed", fun _ => .error "unavailable"⟩

/-- A remote whose children enumeration succeeds with an empty games
list. -/
def zeroChildrenRemote : Remote :=
  ⟨fun _ => .ok (.obj [("data", .arr [])]), fun _ => .error "unused"⟩

/-! ## C1: failure of the children enumeration -/

/-- C1 counterexample: with a failing children enumeration, a cold
cache and `userId=7`, the endpoint answers HTTP 200 with
`{success:true, gamePasses:[], count:0}` — not the claimed 500 with
`{success:false, error:<message>}`: the empty result is served as a
success. -/
theorem C1_counterexample :
    (apiGamePasses failingRemote emptyCache 300000 0 none (some "7") none).1 =
      ⟨200, true, some [], some 0, none⟩ ∧ (200 : Nat) ≠ 500 :=
  ⟨rfl, by decide⟩

/-- C1 (amended): if the children-enumeration call fails,
`fetchAllUserGamePasses` catches the error in its outer `catch` and
returns the empty list without caching anything, and the HTTP response
is status 200 with `{success:true, gamePasses:[], count:0}`; the
failure is never surfaced to the caller. -/
theorem C1_enum_failure_swallowed (remote : Remote) (cache : Cache) (ttl now : Nat)
    (uid : String) (refresh : Option String) (e : String)
    (huid : uid ≠ "")
    (hmiss : getCachedPasses cache ttl now uid
      (refresh == some "true" || refresh == some "1") = none)
    (hfail : remote.userGames uid = .error e) :
    (apiGamePasses remote cache ttl now none (some uid) refresh).1 =
      ⟨200, true, some [], some 0, none⟩ ∧
    (apiGamePasses remote cache ttl now none (some uid) refresh).2 = cache := by
  unfold apiGamePasses
  simp [jsTruthy, JVal.truthy, huid, fetchAllUserGamePasses, hmiss, hfail]

/-- C1 witness: the amended statement at the concrete failing remote. -/
theorem C1_witness :
    ("7" ≠ "") ∧
    getCachedPasses emptyCache 300000 0 "7" ((none : Option String) == some "true" ||
      (none : Option String) == some "1") = none ∧
    failingRemote.userGames "7" = .error "enumeration failed" ∧
    ((apiGamePasses failingRemote emptyCache 300000 0 none (some "7") none).1 =
        ⟨200, true, some [], some 0, none⟩ ∧
      (apiGamePasses failingRemote emptyCache 300000 0 none (some "7") none).2 = emptyCache) :=
  ⟨by decide, rfl, rfl,
    C1_enum_failure_swallowed failingRemote emptyCache 300000 0 "7" none
      "enumeration failed" (by decide) rfl rfl⟩

/-! ## Reduction of the aggregator on the cache-miss path -/

/-- On a cache miss with a resolved enumeration whose `data` field is
an array, `fetchAllUserGamePasses` either returns early (empty games
list: nothing cached) or fans out over the first 10 truthy derived
ids, flattens in child order, and caches the flattened result. -/
lemma fetchAll_spec (remote : Remote) (cache : Cache) (ttl now : Nat)
    (uid : String) (fr : Bool) (resp : JVal) (gs : List JVal) (ids : List JSV)
    (hmiss : getCachedPasses cache ttl now uid fr = none)
    (hok : remote.userGames uid = .ok resp)
    (hdata : resp.prop "data" = .ok (some (.arr gs)))
    (hids : deriveAll gs = .ok ids) :
    fetchAllUserGamePasses remote cache ttl now uid fr =
      if gs.isEmpty then ⟨[], cache, 1, []⟩
      else
        let sel := (ids.filterMap fun o => if jsTruthy o then o else none).take 10
        let ps := (sel.map (fetchChildPasses remote)).flatten
        ⟨ps, cachePasses cache now uid ps, 1, sel⟩ := by
  have hz : ∀ xs : List JVal,
      isStrictZero (JVal.lengthProp (.arr xs)) = xs.isEmpty := by
    intro xs
    cases xs with
    | nil => rfl
    | cons x xs' =>
      simp only [isStrictZero, JVal.lengthProp, List.isEmpty_cons, List.length_cons]
      simp
      omega
  cases gs with
  | nil =>
    simp [fetchAllUserGamePasses, hmiss, hok, aggBody, hdata, hz,
      jsOr, jsTruthy, JVal.truthy]
  | cons g gs' =>
    simp [fetchAllUserGamePasses, hmiss, hok, aggBody, hdata, hz,
      jsOr, jsTruthy, JVal.truthy, hids]

/-! ## C2: zero children -/

/-- C2 counterexample: when the children enumeration succeeds with the
empty games list (`{data: []}`), the aggregator returns `[]` but does
*not* store it — the line-145 early return skips `cachePasses`, so the
owner key stays absent from the cache. -/
theorem C2_counterexample :
    (fetchAllUserGamePasses zeroChildrenRemote emptyCache 300000 0 "7" false).passes = [] ∧
    (fetchAllUserGamePasses zeroChildrenRemote emptyCache 300000 0 "7" false).cache "7" = none :=
  ⟨rfl, rfl⟩

/-- C2 (amended): with zero children after filtering, the aggregator
returns the empty sequence; the empty result is cached only when the
raw games list was nonempty (every id filtered out) — when the raw
games list itself is empty, the early return skips the cache entirely
and the cache is left unchanged. -/
theorem C2_zero_children (remote : Remote) (cache : Cache) (ttl now : Nat)
    (uid : String) (resp : JVal) (gs : List JVal) (ids : List JSV)
    (hmiss : getCachedPasses cache ttl now uid false = none)
    (hok : remote.userGames uid = .ok resp)
    (hdata : resp.prop "data" = .ok (some (.arr gs)))
    (hids : deriveAll gs = .ok ids)
    (hfilter : (ids.filterMap fun o => if jsTruthy o then o else none) = []) :
    (fetchAllUserGamePasses remote cache ttl now uid false).passes = [] ∧
    (gs = [] → (fetchAllUserGamePasses remote cache ttl now uid false).cache = cache) ∧
    (gs ≠ [] → (fetchAllUserGamePasses remote cache ttl now uid false).cache =
      cachePasses cache now uid []) := by
  have h := fetchAll_spec remote cache ttl now uid false resp gs ids hmiss hok hdata hids
  cases gs with
  | nil => rw [h]; simp
  | cons g gs' => rw [h]; simp [hfilter]

/-- A remote enumerating one game whose derived id is the falsy `0`,
so the filtered child list is empty while the raw list is not. -/
def falsyIdRemote : Remote :=
  ⟨fun _ => .ok (.obj [("data", .arr [.obj [("id", .num 0)]])]),
   fun _ => .error "unused"⟩

/-- C2 witness: one raw game with falsy id `0` — zero children remain
after filtering, the result is `[]`, and (raw list nonempty) it is
cached. -/
theorem C2_witness :
    getCachedPasses emptyCache 300000 0 "7" false = none ∧
    falsyIdRemote.userGames "7" = .ok (.obj [("data", .arr [.obj [("id", .num 0)]])]) ∧
    deriveAll [.obj [("id", .num 0)]] = .ok [none] ∧
    ((fetchAllUserGamePasses falsyIdRemote emptyCache 300000 0 "7" false).passes = [] ∧
      (([.obj [("id", .num 0)]] : List JVal) = [] →
        (fetchAllUserGamePasses falsyIdRemote emptyCache 300000 0 "7" false).cache = emptyCache) ∧
      (([.obj [("id", .num 0)]] : List JVal) ≠ [] →
        (fetchAllUserGamePasses falsyIdRemote emptyCache 300000 0 "7" false).cache =
          cachePasses emptyCache 0 "7" [])) :=
  ⟨rfl, rfl, rfl,
    C2_zero_children falsyIdRemote emptyCache 300000 0 "7"
      (.obj [("data", .arr [.obj [("id", .num 0)]])])
      [.obj [("id", .num 0)]] [none] rfl rfl rfl rfl rfl⟩

/-! ## C5: filter then cap at 10 -/

/-- C5: for every children-enumeration response the aggregator first
filters out falsy derived child ids, then queries exactly the first 10
remaining ids in enumeration order — children beyond the first 10 are
never queried. -/
theorem C5_fanout_cap (remote : Remote) (cache : Cache) (ttl now : Nat)
    (uid : String) (fr : Bool) (resp : JVal) (gs : List JVal) (ids : List JSV)
    (hmiss : getCachedPasses cache ttl now uid fr = none)
    (hok : remote.userGames uid = .ok resp)
    (hdata : resp.prop "data" = .ok (some (.arr gs)))
    (hids : deriveAll gs = .ok ids) :
    (fetchAllUserGamePasses remote cache ttl now uid fr).childCalls =
      ((ids.filterMap fun o => if jsTruthy o then o else none).take 10) := by
  have h := fetchAll_spec remote cache ttl now uid fr resp gs ids hmiss hok hdata hids
  cases gs with
  | nil =>
    cases hids0 : ids with
    | nil => rw [h]; simp
    | cons i is =>
      rw [hids0] at hids
      simp [deriveAll] at hids
  | cons g gs' => rw [h]; simp

/-- A remote enumerating 15 games with ids 1..15. -/
def fifteenRemote : Remote :=
  ⟨fun _ => .ok (.obj [("data", .arr
      [.obj [("id", .num 1)], .obj [("id", .num 2)], .obj [("id", .num 3)],
       .obj [("id", .num 4)], .obj [("id", .num 5)], .obj [("id", .num 6)],
       .obj [("id", .num 7)], .obj [("id", .num 8)], .obj [("id", .num 9)],
       .obj [("id", .num 10)], .obj [("id", .num 11)], .obj [("id", .num 12)],
       .obj [("id", .num 13)], .obj [("id", .num 14)], .obj [("id", .num 15)]])]),
   fun _ => .ok (.obj [("gamePasses", .arr [])])⟩

/-- C5 witness: with 15 discoverable children exactly the first 10
ids, in enumeration order, are queried. -/
theorem C5_witness :
    (fetchAllUserGamePasses fifteenRemote emptyCache 300000 0 "7" false).childCalls =
      (([some (.num 1), some (.num 2), some (.num 3), some (.num 4), some (.num 5),
         some (.num 6), some (.num 7), some (.num 8), some (.num 9), some (.num 10),
         some (.num 11), some (.num 12), some (.num 13), some (.num 14),
         some (.num 15)] : List JSV).filterMap fun o =>
            if jsTruthy o then o else none).take 10 ∧
    (fetchAllUserGamePasses fifteenRemote emptyCache 300000 0 "7" false).childCalls =
      [.num 1, .num 2, .num 3, .num 4, .num 5, .num 6, .num 7, .num 8, .num 9, .num 10] :=
  ⟨C5_fanout_cap fifteenRemote emptyCache 300000 0 "7" false
      (.obj [("data", .arr
        [.obj [("id", .num 1)], .obj [("id", .num 2)], .obj [("id", .num 3)],
         .obj [("id", .num 4)], .obj [("id", .num 5)], .obj [("id", .num 6)],
         .obj [("id", .num 7)], .obj [("id", .num 8)], .obj [("id", .num 9)],
         .obj [("id", .num 10)], .obj [("id", .num 11)], .obj [("id", .num 12)],
         .obj [("id", .num 13)], .obj [("id", .num 14)], .obj [("id", .num 15)]])])
      [.obj [("id", .num 1)], .obj [("id", .num 2)], .obj [("id", .num 3)],
       .obj [("id", .num 4)], .obj [("id", .num 5)], .obj [("id", .num 6)],
       .obj [("id", .num 7)], .obj [("id", .num 8)], .obj [("id", .num 9)],
       .obj [("id", .num 10)], .obj [("id", .num 11)], .obj [("id", .num 12)],
       .obj [("id", .num 13)], .obj [("id", .num 14)], .obj [("id", .num 15)]]
      [some (.num 1), some (.num 2), some (.num 3), some (.num 4), some (.num 5),
       some (.num 6), some (.num 7), some (.num 8), some (.num 9), some (.num 10),
       some (.num 11), some (.num 12), some (.num 13), some (.num 14), some (.num 15)]
      rfl rfl rfl rfl,
    rfl⟩

/-! ## C6: per-child failure isolation and ordering -/

/-- C6: a child whose item-enumeration call fails contributes the
empty list (its `catch` swallows the error, nothing is surfaced), and
the aggregate result is exactly the concatenation of the per-child
contributions taken in the original enumeration order of the selected
children — `Promise.all` keeps input order, so flattening concatenates
per-child lists in child order regardless of completion order, and
item order within each child is preserved by the formatter's `map`. -/
theorem C6_partial_failure (remote : Remote) (cache : Cache) (ttl now : Nat)
    (uid : String) (fr : Bool) (u : JVal) (e : String)
    (resp : JVal) (gs : List JVal) (ids : List JSV)
    (hfail : remote.universeGamePasses u = .error e)
    (hmiss : getCachedPasses cache ttl now uid fr = none)
    (hok : remote.userGames uid = .ok resp)
    (hdata : resp.prop "data" = .ok (some (.arr gs)))
    (hids : deriveAll gs = .ok ids) :
    fetchChildPasses remote u = [] ∧
    (fetchAllUserGamePasses remote cache ttl now uid fr).passes =
      ((fetchAllUserGamePasses remote cache ttl now uid fr).childCalls.map
        (fetchChildPasses remote)).flatten := by
  constructor
  · simp [fetchChildPasses, childPassesExc, hfail]
  · have h := fetchAll_spec remote cache ttl now uid fr resp gs ids hmiss hok hdata hids
    cases gs with
    | nil => rw [h]; simp
    | cons g gs' => rw [h]; simp

/-- The §8 partial-failure scenario: child 1's item enumeration fails,
child 2 succeeds with three items. -/
def abRemote : Remote :=
  ⟨fun _ => .ok (.obj [("data", .arr [.obj [("id", .num 1)], .obj [("id", .num 2)]])]),
   fun u => match u with
     | .num 2 => .ok (.obj [("gamePasses", .arr
         [.obj [("id", .num 101), ("name", .str "P1")],
          .obj [("id", .num 102), ("name", .str "P2")],
          .obj [("id", .num 103), ("name", .str "P3")]])])
     | _ => .error "boom"⟩

/-- C6 witness: child A (id 1) fails and child B (id 2) succeeds with
3 items — A contributes nothing, the aggregate is exactly B's three
normalized items in B's order, and no error surfaces. -/
theorem C6_witness :
    (fetchChildPasses abRemote (.num 1) = [] ∧
      (fetchAllUserGamePasses abRemote emptyCache 300000 0 "42" false).passes =
        ((fetchAllUserGamePasses abRemote emptyCache 300000 0 "42" false).childCalls.map
          (fetchChildPasses abRemote)).flatten) ∧
    (fetchAllUserGamePasses abRemote emptyCache 300000 0 "42" false).passes =
      [⟨some (.num 101), some (.str "P1"), some (.str ""), some (.str "")⟩,
       ⟨some (.num 102), some (.str "P2"), some (.str ""), some (.str "")⟩,
       ⟨some (.num 103), some (.str "P3"), some (.str ""), some (.str "")⟩] :=
  ⟨C6_partial_failure abRemote emptyCache 300000 0 "42" false (.num 1) "boom"
      (.obj [("data", .arr [.obj [("id", .num 1)], .obj [("id", .num 2)]])])
      [.obj [("id", .num 1)], .obj [("id", .num 2)]]
      [some (.num 1), some (.num 2)]
      rfl rfl rfl rfl rfl,
    rfl⟩

/-! ## C8: idempotence inside the TTL window -/

/-- C8 counterexample: for an owner with zero enumerable children the
first call caches nothing, so the second call within the TTL window
hits the remote again — `gamesCalls = 1`, a children-enumeration call,
where the claim requires none. -/
theorem C8_counterexample :
    (fetchAllUserGamePasses zeroChildrenRemote
        (fetchAllUserGamePasses zeroChildrenRemote emptyCache 300000 0 "7" false).cache
        300000 1 "7" false).gamesCalls = 1 ∧ (1 : Nat) ≠ 0 :=
  ⟨rfl, by decide⟩

/-- C8 (amended): when the first call actually caches its result
(cache miss, successful enumeration, nonempty raw games list), a
second call with `forceRefresh=false` within the TTL window returns
the identical record sequence and performs no remote call at all; when
the first call cached nothing (failure, or zero raw children) the
second call fetches again. -/
theorem C8_idempotent_when_cached (remote : Remote) (cache : Cache)
    (ttl now now2 : Nat) (uid : String) (resp : JVal) (gs : List JVal) (ids : List JSV)
    (hmiss : getCachedPasses cache ttl now uid false = none)
    (hok : remote.userGames uid = .ok resp)
    (hdata : resp.prop "data" = .ok (some (.arr gs)))
    (hgs : gs ≠ [])
    (hids : deriveAll gs = .ok ids)
    (hfresh : now2 - now < ttl) :
    (fetchAllUserGamePasses remote
        (fetchAllUserGamePasses remote cache ttl now uid false).cache
        ttl now2 uid false).passes =
      (fetchAllUserGamePasses remote cache ttl now uid false).passes ∧
    (fetchAllUserGamePasses remote
        (fetchAllUserGamePasses remote cache ttl now uid false).cache
        ttl now2 uid false).gamesCalls = 0 ∧
    (fetchAllUserGamePasses remote
        (fetchAllUserGamePasses remote cache ttl now uid false).cache
        ttl now2 uid false).childCalls = [] ∧
    (fetchAllUserGamePasses remote
        (fetchAllUserGamePasses remote cache ttl now uid false).cache
        ttl now2 uid false).cache =
      (fetchAllUserGamePasses remote cache ttl now uid false).cache := by
  have h := fetchAll_spec remote cache ttl now uid false resp gs ids hmiss hok hdata hids
  cases gs with
  | nil => exact absurd rfl hgs
  | cons g gs' =>
    rw [h]
    simp [fetchAllUserGamePasses, getCachedPasses, cachePasses, hfresh]

/-- C8 witness: the two-children scenario, second call 100 ms later
inside the 300 000 ms window. -/
theorem C8_witness :
    (fetchAllUserGamePasses abRemote
        (fetchAllUserGamePasses abRemote emptyCache 300000 0 "42" false).cache
        300000 100 "42" false).passes =
      (fetchAllUserGamePasses abRemote emptyCache 300000 0 "42" false).passes ∧
    (fetchAllUserGamePasses abRemote
        (fetchAllUserGamePasses abRemote emptyCache 300000 0 "42" false).cache
        300000 100 "42" false).gamesCalls = 0 ∧
    (fetchAllUserGamePasses abRemote
        (fetchAllUserGamePasses abRemote emptyCache 300000 0 "42" false).cache
        300000 100 "42" false).childCalls = [] ∧
    (fetchAllUserGamePasses abRemote
        (fetchAllUserGamePasses abRemote emptyCache 300000 0 "42" false).cache
        300000 100 "42" false).cache =
      (fetchAllUserGamePasses abRemote emptyCache 300000 0 "42" false).cache :=
  C8_idempotent_when_cached abRemote emptyCache 300000 0 100 "42"
    (.obj [("data", .arr [.obj [("id", .num 1)], .obj [("id", .num 2)]])])
    [.obj [("id", .num 1)], .obj [("id", .num 2)]]
    [some (.num 1), some (.num 2)]
    rfl rfl rfl (by simp) rfl (by decide)

/-! ## C9: force refresh -/

/-- A record sitting in the cache before a forced refresh. -/
def stalePass : FormattedPass :=
  ⟨some (.num 9), some (.str "Old"), some (.str ""), some (.str "")⟩

/-- C9 counterexample: with a prior cache entry and a forced refresh
that enumerates zero children, the fresh result `[]` is *not* written:
the early return skips `cachePasses` and the prior entry (one stale
record, timestamp 0) survives, so the entry does not hold the newly
fetched records. -/
theorem C9_counterexample :
    (fetchAllUserGamePasses zeroChildrenRemote
        (cachePasses emptyCache 0 "7" [stalePass]) 300000 5 "7" true).passes = [] ∧
    (fetchAllUserGamePasses zeroChildrenRemote
        (cachePasses emptyCache 0 "7" [stalePass]) 300000 5 "7" true).cache "7" =
      some ⟨[stalePass], 0⟩ ∧
    ([stalePass] : List FormattedPass) ≠ [] :=
  ⟨rfl, rfl, by simp⟩

/-- C9 (amended): `forceRefresh=true` always bypasses the cache read
and performs a fresh children enumeration regardless of TTL state; the
cache entry is overwritten with the newly fetched records only when
the enumeration succeeds with a nonempty raw games list — on zero raw
children (or failure) the prior entry is left in place. -/
theorem C9_force_refresh (remote : Remote) (cache : Cache) (ttl now : Nat)
    (uid : String) (resp : JVal) (gs : List JVal) (ids : List JSV)
    (hok : remote.userGames uid = .ok resp)
    (hdata : resp.prop "data" = .ok (some (.arr gs)))
    (hids : deriveAll gs = .ok ids) :
    getCachedPasses cache ttl now uid true = none ∧
    (fetchAllUserGamePasses remote cache ttl now uid true).gamesCalls = 1 ∧
    (gs ≠ [] → (fetchAllUserGamePasses remote cache ttl now uid true).cache =
      cachePasses cache now uid
        (fetchAllUserGamePasses remote cache ttl now uid true).passes) := by
  have h := fetchAll_spec remote cache ttl now uid true resp gs ids rfl hok hdata hids
  refine ⟨rfl, ?_, ?_⟩ <;> cases gs with
  | nil => rw [h]; simp
  | cons g gs' => rw [h]; simp

/-- C9 witness: forced refresh over a prior entry, two children, one
failing — the entry is overwritten with the fresh flattened result. -/
theorem C9_witness :
    (getCachedPasses (cachePasses emptyCache 0 "42" [stalePass]) 300000 5 "42" true = none ∧
      (fetchAllUserGamePasses abRemote
          (cachePasses emptyCache 0 "42" [stalePass]) 300000 5 "42" true).gamesCalls = 1 ∧
      (([.obj [("id", .num 1)], .obj [("id", .num 2)]] : List JVal) ≠ [] →
        (fetchAllUserGamePasses abRemote
            (cachePasses emptyCache 0 "42" [stalePass]) 300000 5 "42" true).cache =
          cachePasses (cachePasses emptyCache 0 "42" [stalePass]) 5 "42"
            (fetchAllUserGamePasses abRemote
              (cachePasses emptyCache 0 "42" [stalePass]) 300000 5 "42" true).passes)) ∧
    (fetchAllUserGamePasses abRemote
        (cachePasses emptyCache 0 "42" [stalePass]) 300000 5 "42" true).cache "42" =
      some ⟨[⟨some (.num 101), some (.str "P1"), some (.str ""), some (.str "")⟩,
             ⟨some (.num 102), some (.str "P2"), some (.str ""), some (.str "")⟩,
             ⟨some (.num 103), some (.str "P3"), some (.str ""), some (.str "")⟩], 5⟩ :=
  ⟨C9_force_refresh abRemote (cachePasses emptyCache 0 "42" [stalePass]) 300000 5 "42"
      (.obj [("data", .arr [.obj [("id", .num 1)], .obj [("id", .num 2)]])])
      [.obj [("id", .num 1)], .obj [("id", .num 2)]]
      [some (.num 1), some (.num 2)]
      rfl rfl rfl,
    rfl⟩

/-! ## C10: response envelope invariant -/

/-- C10: in every response of `GET /api/gamepasses`, `success` is true
exactly when no error response (400/500) was taken, and every
successful response carries a `gamePasses` array with `count` equal to
its length — in both the `universeId` branch and the `userId`
branch. -/
theorem C10_response_invariant (remote : Remote) (cache : Cache) (ttl now : Nat)
    (universeId userId refresh : Option String) :
    ((apiGamePasses remote cache ttl now universeId userId refresh).1.success = true ↔
      (apiGamePasses remote cache ttl now universeId userId refresh).1.status = 200) ∧
    ((apiGamePasses remote cache ttl now universeId userId refresh).1.success = true →
      ∃ l, (apiGamePasses remote cache ttl now universeId userId refresh).1.gamePasses =
          some l ∧
        (apiGamePasses remote cache ttl now universeId userId refresh).1.count =
          some l.length) := by
  unfold apiGamePasses
  by_cases h1 : jsTruthy (universeId.map JVal.str) = true
  · cases hu : universeBranchExc remote (universeId.getD "") <;> simp [h1, hu]
  · by_cases h2 : jsTruthy (userId.map JVal.str) = true <;>
      simp [h1, h2, Bool.not_eq_true] at *

/-- C10 witness: the `universeId` branch on a remote that returns an
empty pass list — a successful 200 response with `count = 0`. -/
theorem C10_witness :
    (((apiGamePasses fifteenRemote emptyCache 300000 0 (some "5") none none).1.success = true ↔
        (apiGamePasses fifteenRemote emptyCache 300000 0 (some "5") none none).1.status = 200) ∧
      ((apiGamePasses fifteenRemote emptyCache 300000 0 (some "5") none none).1.success = true →
        ∃ l, (apiGamePasses fifteenRemote emptyCache 300000 0 (some "5") none none).1.gamePasses =
            some l ∧
          (apiGamePasses fifteenRemote emptyCache 300000 0 (some "5") none none).1.count =
            some l.length)) ∧
    (apiGamePasses fifteenRemote emptyCache 300000 0 (some "5") none none).1.status = 200 :=
  ⟨C10_response_invariant fifteenRemote emptyCache 300000 0 (some "5") none none, rfl⟩

end TipJar
